import Mathlib

/-!
Shallow embedding of the chat-gateway component of `llm_backend/main.py`
(Daredevil LLM Chat API).  Network effects (the upstream health probe and
the proxied chat call) are modelled by oracle values describing the outcome
of the corresponding round-trip; wall-clock time is an abstract `Nat`
passed to each handler.  Strings copied from the source use `\x27` escapes
for apostrophes; their values are the exact source texts.
-/

set_option maxRecDepth 8192

namespace DDCore

/-- Substring test on character lists: `charsPrefixOf n h` is true when `n`
is a prefix of `h` (models Python string prefix comparison). -/
def charsPrefixOf : List Char → List Char → Bool
  | [], _ => true
  | _ :: _, [] => false
  | a :: as, b :: bs => a == b && charsPrefixOf as bs

/-- `charsSub n h` is true when `n` occurs as a contiguous block of `h`
(models Python `n in h`). -/
def charsSub : List Char → List Char → Bool
  | needle, [] => charsPrefixOf needle []
  | needle, c :: t => charsPrefixOf needle (c :: t) || charsSub needle t

/-- Python `needle in hay` on strings. -/
def strIn (needle hay : String) : Bool :=
  charsSub needle.data hay.data

/-- ASCII lowercasing of one character (the fragment of Python
`str.lower()` exercised by the classifier's trigger terms, which are all
ASCII). -/
def lowerChar (c : Char) : Char :=
  if 'A' ≤ c && c ≤ 'Z' then Char.ofNat (c.toNat + 32) else c

/-- Python `s.lower()` (ASCII fragment). -/
def pyLower (s : String) : String :=
  ⟨s.data.map lowerChar⟩

/-- Python `s.startswith(pre)`. -/
def pyStartswith (s pre : String) : Bool :=
  charsPrefixOf pre.data s.data

/-- Python slice `l[-n:]`: the last `n` elements of `l` (all of `l` when
`l` is shorter than `n`). -/
def lastN (n : Nat) (l : List α) : List α :=
  l.drop (l.length - n)

/-- A message record as stored in a session's `messages` list
(`add_message_to_session`, main.py lines 82-87). -/
structure Message where
  content : String
  type : String
  timestamp : Nat
  is_user : Bool
deriving DecidableEq, Repr

/-- Input to `add_message_to_session`: the dict literal passed by the
endpoint; `is_user` defaults to `True` via `message.get("is_user", True)`. -/
structure MsgIn where
  content : String
  type : String
  is_user : Bool := true
deriving DecidableEq, Repr

/-- A session record (`get_session_context`, main.py lines 71-77). -/
structure Session where
  messages : List Message
  created_at : Nat
  last_activity : Nat
deriving DecidableEq, Repr

/-- The module-level `sessions: Dict[str, Dict]` map, as an association
list with unique keys (insertion updates in place). -/
def Store := List (String × Session)
deriving DecidableEq, Repr

/-- Dictionary lookup `sessions.get(session_id)` / `session_id in sessions`. -/
def lookupSession : Store → String → Option Session
  | [], _ => none
  | (k, v) :: t, sid => if k == sid then some v else lookupSession t sid

/-- Dictionary write `sessions[session_id] = s`. -/
def setSession : Store → String → Session → Store
  | [], sid, s => [(sid, s)]
  | (k, v) :: t, sid, s =>
      if k == sid then (k, s) :: t else (k, v) :: setSession t sid s

/-- The messages list of a session, `[]` when the session is absent. -/
def sessionMessages (store : Store) (sid : String) : List Message :=
  match lookupSession store sid with
  | some s => s.messages
  | none => []

/-- `get_session_context(session_id)` (main.py lines 69-77): get-or-create;
returns the possibly extended store together with the session record. -/
def get_session_context (store : Store) (sid : String) (now : Nat) :
    Store × Session :=
  match lookupSession store sid with
  | some s => (store, s)
  | none =>
      let s : Session := ⟨[], now, now⟩
      (setSession store sid s, s)

/-- `add_message_to_session(session_id, message)` (main.py lines 79-90):
get-or-create, push the message record, trim the history to the last 10
entries, update `last_activity`. -/
def add_message_to_session (store : Store) (sid : String) (msg : MsgIn)
    (now : Nat) : Store :=
  let sc := get_session_context store sid now
  let context := sc.2
  let msgs := lastN 10
    (context.messages ++ [⟨msg.content, msg.type, now, msg.is_user⟩])
  setSession sc.1 sid { context with messages := msgs, last_activity := now }

/-- Outcome of the `GET {BACKEND_CLIENT_URL}/health` round-trip issued by
`check_backend_availability`: either an HTTP response with some status code
or a raised network error (timeout included). -/
inductive ProbeNet where
  | response (status : Nat)
  | failure
deriving DecidableEq, Repr

/-- JSON body returned by the upstream `POST /chat`, restricted to the
fields the gateway reads (`result.get("message")`, `result.get("type")`)
plus the passthrough `audioUrl`. -/
structure UpstreamJson where
  message : Option String
  type : Option String
  audioUrl : Option String
deriving DecidableEq, Repr

/-- Outcome of the `POST {BACKEND_CLIENT_URL}/chat` round-trip issued by
`proxy_to_backend_client`: an HTTP response (status, parsed JSON body, raw
text), a timeout, a connection failure, or any other raised error. -/
inductive ForwardNet where
  | response (status : Nat) (body : UpstreamJson) (text : String)
  | timeout
  | connectError
  | otherFailure (msg : String)
deriving DecidableEq, Repr

/-- The two network round-trips a single `/chat` request may perform. -/
structure Net where
  probe : ProbeNet
  forward : ForwardNet
deriving DecidableEq, Repr

def BACKEND_CLIENT_URL : String :=
  "https://mercy-tooth-jpg-attached.trycloudflare.com"

/-- `check_backend_availability()` (main.py lines 92-100): true exactly
when the health GET completed with status 200; any raised error (network
error or timeout) yields `False`; never raises. -/
def check_backend_availability (net : ProbeNet) : Bool :=
  match net with
  | .response status => status == 200
  | .failure => false

/-- An `HTTPException(status_code, detail)`. -/
structure HttpError where
  status : Nat
  detail : String
deriving DecidableEq, Repr

/-- The uploaded audio part (`UploadFile`): filename and declared media
type, both optional (Python treats `None` and `""` as falsy). -/
structure AudioFile where
  filename : Option String
  content_type : Option String
deriving DecidableEq, Repr

/-- A `/chat` request: the five form fields plus the optional audio part. -/
structure ChatRequest where
  message : String
  type : String
  sessionId : String
  userId : String
  username : String
  audio : Option AudioFile
deriving DecidableEq, Repr

/-- `proxy_to_backend_client(...)` (main.py lines 102-149): on a 200
response returns the upstream JSON verbatim; a non-200 status, a timeout,
a connection failure, or any other error becomes a typed `HTTPException`
(status 504 / 503 / 500 respectively for the raised kinds). -/
def proxy_to_backend_client (req : ChatRequest) (net : ForwardNet) :
    Except HttpError UpstreamJson :=
  match net with
  | .response status body text =>
      if status == 200 then .ok body
      else .error ⟨status, "Backend error: " ++ text⟩
  | .timeout => .error ⟨504, "Backend client timeout"⟩
  | .connectError => .error ⟨503, "Backend client unavailable"⟩
  | .otherFailure msg => .error ⟨500, "Backend proxy error: " ++ msg⟩

/-- `transcribe_audio(audio_file)` (main.py lines 151-159): placeholder
speech-to-text; returns a fixed message regardless of the input (the
except branch is unreachable since nothing in the body raises). -/
def transcribe_audio (audio_file : Option AudioFile) : String :=
  "I received your voice message, but speech-to-text is not implemented yet. Please use text messages for now."

/-- `text_to_speech(text)` (main.py lines 161-169): placeholder
text-to-speech; always returns `None` (no audio file generated). -/
def text_to_speech (text : String) : Option String :=
  none

/-- `generate_llm_response(message, session_context, user_id)` (main.py
lines 171-186): deterministic keyword classifier over the lowercased
message; `context_messages` is read but never used, exactly as in the
source. -/
def generate_llm_response (message : String) (session_context : Session)
    (user_id : String) : String :=
  let context_messages := session_context.messages
  if strIn "f1" (pyLower message) || strIn "formula" (pyLower message) then
    "I can help you with F1 predictions and analysis! Based on current data, I\x27d recommend checking the latest qualifying results and driver performance metrics."
  else if strIn "bet" (pyLower message) || strIn "betting" (pyLower message) then
    "For sports betting insights, I can analyze match statistics, team performance, and historical data to help you make informed decisions."
  else if strIn "hello" (pyLower message) || strIn "hi" (pyLower message) then
    "Hello! I\x27m your AI assistant for sports betting and F1 analysis. How can I help you today?"
  else
    "I understand you said: \x27" ++ message ++ "\x27. I\x27m here to help with sports betting analysis, F1 predictions, and match insights. What specific information are you looking for?"

/-- Backend block of the `/health` JSON body. -/
structure BackendStatus where
  url : String
  available : Bool
deriving DecidableEq, Repr

/-- The `/health` JSON body (main.py lines 188-199). -/
structure HealthResponse where
  status : String
  timestamp : Nat
  service : String
  backend_client : BackendStatus
deriving DecidableEq, Repr

/-- `health_check()` (main.py lines 188-199): performs a fresh
`check_backend_availability` round-trip (`net` is this request's probe
outcome) and reports its result. -/
def health_check (net : ProbeNet) (now : Nat) : HealthResponse :=
  { status := "healthy"
    timestamp := now
    service := "llm-chat-api"
    backend_client := ⟨BACKEND_CLIENT_URL, check_backend_availability net⟩ }

/-- Result returned by the `/chat` endpoint: a raised `HTTPException`, the
upstream JSON returned verbatim from the proxy path, or the placeholder
body `{"message": _, "type": _, "audioUrl": _}`. -/
inductive ChatResult where
  | rejected (status : Nat) (detail : String)
  | proxied (body : UpstreamJson)
  | answered (message : String) (type : String) (audioUrl : Option String)
deriving DecidableEq, Repr

/-- Truthiness of `audio.content_type and not
audio.content_type.startswith("audio/")` (main.py line 221): `None` and
the empty string are falsy, so the check only fires on a declared,
non-empty media type that does not start with `audio/`. -/
def bad_content_type : Option AudioFile → Bool
  | none => false
  | some a =>
      match a.content_type with
      | none => false
      | some ct => ct != "" && !pyStartswith ct "audio/"

/-- The fallback block of `chat_endpoint` (main.py lines 261-319): the
placeholder implementation, shared by the probe-failed path and the
proxy-failure fallthrough. -/
def placeholder_response (store : Store) (req : ChatRequest) (now : Nat) :
    ChatResult × Store :=
  let sc := get_session_context store req.sessionId now
  let session_context := sc.2
  if req.type == "voice" then
    let transcribed_text := transcribe_audio req.audio
    let store1 := add_message_to_session sc.1 req.sessionId
      ⟨transcribed_text, "voice", true⟩ now
    let response_text :=
      generate_llm_response transcribed_text session_context req.userId
    let audio_url := text_to_speech response_text
    let store2 := add_message_to_session store1 req.sessionId
      ⟨response_text, "voice", false⟩ now
    (.answered response_text "voice" audio_url, store2)
  else
    let store1 := add_message_to_session sc.1 req.sessionId
      ⟨req.message, "text", true⟩ now
    let response_text :=
      generate_llm_response req.message session_context req.userId
    let store2 := add_message_to_session store1 req.sessionId
      ⟨response_text, "text", false⟩ now
    (.answered response_text "text" none, store2)

/-- `chat_endpoint(...)` (main.py lines 201-325): validation, probe,
proxy-or-fallback, session recording.  Detail strings drop the source's
inner quotes. -/
def chat_endpoint (store : Store) (req : ChatRequest) (net : Net)
    (now : Nat) : ChatResult × Store :=
  if req.type != "text" && req.type != "voice" then
    (.rejected 400 "Type must be text or voice", store)
  else if req.type == "voice" && req.audio == none then
    (.rejected 400 "Audio file required for voice messages", store)
  else if req.type == "voice" && bad_content_type req.audio then
    (.rejected 400 "File must be an audio file", store)
  else
    let backend_available := check_backend_availability net.probe
    if backend_available then
      match proxy_to_backend_client req net.forward with
      | .ok result =>
          let store1 := add_message_to_session store req.sessionId
            ⟨req.message, req.type, true⟩ now
          let store2 := add_message_to_session store1 req.sessionId
            ⟨result.message.getD "", result.type.getD "text", false⟩ now
          (.proxied result, store2)
      | .error _ =>
          -- HTTPException from the proxy is caught; fall through to the
          -- placeholder response (main.py lines 254-259).
          placeholder_response store req now
    else
      placeholder_response store req now

/-- `get_session_info(session_id)` (main.py lines 359-365): read-only
lookup; 404 when the session id is absent, the record otherwise.  The
store is returned unchanged. -/
def get_session_info (store : Store) (sid : String) :
    Except HttpError Session × Store :=
  match lookupSession store sid with
  | none => (.error ⟨404, "Session not found"⟩, store)
  | some s => (.ok s, store)

/-- The disjunction of the three validation guards of `chat_endpoint`
(main.py lines 215-222): true exactly when the request is rejected with a
400 before any other activity. -/
def rejected_by_validation (req : ChatRequest) : Bool :=
  (req.type != "text" && req.type != "voice")
  || (req.type == "voice" && req.audio == none)
  || (req.type == "voice" && bad_content_type req.audio)

/-! ## Helper lemmas about the store and history trimming -/

theorem lookupSession_setSession_self (store : Store) (sid : String)
    (s : Session) : lookupSession (setSession store sid s) sid = some s := by
  induction store with
  | nil => simp [setSession, lookupSession]
  | cons kv t ih =>
      obtain ⟨k, v⟩ := kv
      by_cases h : k == sid
      · simp [setSession, lookupSession, h]
      · simp [setSession, lookupSession, h, ih]

theorem lookupSession_setSession_ne (store : Store) (sid sid' : String)
    (s : Session) (h : sid' ≠ sid) :
    lookupSession (setSession store sid s) sid' = lookupSession store sid' := by
  have h2 : (sid == sid') = false := by
    simp only [beq_eq_false_iff_ne, ne_eq]
    exact fun hh => h hh.symm
  induction store with
  | nil => simp [setSession, lookupSession, h2]
  | cons kv t ih =>
      obtain ⟨k, v⟩ := kv
      by_cases hk : k == sid
      · have hks : k = sid := eq_of_beq hk
        subst hks
        simp [setSession, lookupSession, h2]
      · simp [setSession, lookupSession, hk, ih]

theorem lookupSession_getctx_self (store : Store) (sid : String) (now : Nat) :
    lookupSession (get_session_context store sid now).1 sid
      = some (get_session_context store sid now).2 := by
  unfold get_session_context
  cases h : lookupSession store sid with
  | some s => simp [h]
  | none => simp [h, lookupSession_setSession_self]

theorem lookupSession_getctx_ne (store : Store) (sid sid' : String)
    (now : Nat) (h : sid' ≠ sid) :
    lookupSession (get_session_context store sid now).1 sid'
      = lookupSession store sid' := by
  unfold get_session_context
  cases hl : lookupSession store sid with
  | some s => simp [hl]
  | none => simp [hl, lookupSession_setSession_ne _ _ _ _ h]

theorem getctx_messages (store : Store) (sid : String) (now : Nat) :
    (get_session_context store sid now).2.messages
      = sessionMessages store sid := by
  unfold get_session_context sessionMessages
  cases h : lookupSession store sid <;> simp [h]

theorem lastN_length_le (n : Nat) (l : List α) : (lastN n l).length ≤ n := by
  unfold lastN
  rw [List.length_drop]
  omega

theorem lastN_of_length_le (n : Nat) (l : List α) (h : l.length ≤ n) :
    lastN n l = l := by
  unfold lastN
  rw [Nat.sub_eq_zero_of_le h, List.drop_zero]

theorem lastN_append_absorb (n : Nat) (l B : List α) :
    lastN n (lastN n l ++ B) = lastN n (l ++ B) := by
  rcases Nat.le_total l.length n with h | h
  · rw [lastN_of_length_le n l h]
  · unfold lastN
    rw [List.length_append, List.length_append, List.length_drop]
    have h1 : l.length - (l.length - n) + B.length - n = B.length := by omega
    have h2 : l.length + B.length - n = (l.length - n) + B.length := by omega
    rw [h1, h2]
    conv_rhs => rw [← List.drop_drop, List.drop_append_eq_append_drop,
      Nat.sub_eq_zero_of_le (Nat.sub_le l.length n), List.drop_zero]

theorem sessionMessages_set (store : Store) (sid : String) (s : Session) :
    sessionMessages (setSession store sid s) sid = s.messages := by
  unfold sessionMessages
  rw [lookupSession_setSession_self]

theorem sessionMessages_add (store : Store) (sid : String) (msg : MsgIn)
    (now : Nat) :
    sessionMessages (add_message_to_session store sid msg now) sid
      = lastN 10 (sessionMessages store sid
          ++ [⟨msg.content, msg.type, now, msg.is_user⟩]) := by
  show sessionMessages
      (setSession (get_session_context store sid now).1 sid
        { (get_session_context store sid now).2 with
            messages := lastN 10 ((get_session_context store sid now).2.messages
              ++ [⟨msg.content, msg.type, now, msg.is_user⟩]),
            last_activity := now }) sid = _
  rw [sessionMessages_set, getctx_messages]

theorem lookupSession_add_ne (store : Store) (sid sid' : String)
    (msg : MsgIn) (now : Nat) (h : sid' ≠ sid) :
    lookupSession (add_message_to_session store sid msg now) sid'
      = lookupSession store sid' := by
  unfold add_message_to_session
  rw [lookupSession_setSession_ne _ _ _ _ h, lookupSession_getctx_ne _ _ _ _ h]

theorem sessionMessages_add_two (store : Store) (sid : String)
    (m1 m2 : MsgIn) (now : Nat) :
    sessionMessages
        (add_message_to_session (add_message_to_session store sid m1 now)
          sid m2 now) sid
      = lastN 10 (sessionMessages store sid
          ++ [⟨m1.content, m1.type, now, m1.is_user⟩,
              ⟨m2.content, m2.type, now, m2.is_user⟩]) := by
  rw [sessionMessages_add, sessionMessages_add, lastN_append_absorb,
    List.append_assoc]
  rfl

theorem sessionMessages_getctx_store (store : Store) (sid : String)
    (now : Nat) :
    sessionMessages (get_session_context store sid now).1 sid
      = sessionMessages store sid := by
  unfold sessionMessages
  rw [lookupSession_getctx_self]
  exact getctx_messages store sid now

theorem guards_of_not_rejected (req : ChatRequest)
    (h : rejected_by_validation req = false) :
    (req.type != "text" && req.type != "voice") = false
    ∧ (req.type == "voice" && req.audio == none) = false
    ∧ (req.type == "voice" && bad_content_type req.audio) = false := by
  simp only [rejected_by_validation, Bool.or_eq_false_iff] at h
  exact ⟨h.1.1, h.1.2, h.2⟩

theorem chat_endpoint_fallback (store : Store) (req : ChatRequest)
    (net : Net) (now : Nat)
    (hval : rejected_by_validation req = false)
    (hfb : check_backend_availability net.probe = false
        ∨ ∃ e, proxy_to_backend_client req net.forward = Except.error e) :
    chat_endpoint store req net now = placeholder_response store req now := by
  obtain ⟨h1, h2, h3⟩ := guards_of_not_rejected req hval
  rcases hfb with hp | ⟨e, he⟩
  · simp only [chat_endpoint, h1, h2, h3, hp, Bool.false_eq_true, if_false]
  · cases hc : check_backend_availability net.probe
    · simp only [chat_endpoint, h1, h2, h3, hc, Bool.false_eq_true, if_false]
    · simp only [chat_endpoint, h1, h2, h3, hc, he, Bool.false_eq_true,
        if_false, if_true]

theorem placeholder_response_text (store : Store) (req : ChatRequest)
    (now : Nat) (h : (req.type == "voice") = false) :
    placeholder_response store req now
      = (ChatResult.answered
          (generate_llm_response req.message
            (get_session_context store req.sessionId now).2 req.userId)
          "text" none,
        add_message_to_session
          (add_message_to_session (get_session_context store req.sessionId now).1
            req.sessionId ⟨req.message, "text", true⟩ now)
          req.sessionId
          ⟨generate_llm_response req.message
            (get_session_context store req.sessionId now).2 req.userId,
            "text", false⟩ now) := by
  simp only [placeholder_response, h, Bool.false_eq_true, if_false]

theorem placeholder_response_voice (store : Store) (req : ChatRequest)
    (now : Nat) (h : (req.type == "voice") = true) :
    placeholder_response store req now
      = (ChatResult.answered
          (generate_llm_response (transcribe_audio req.audio)
            (get_session_context store req.sessionId now).2 req.userId)
          "voice"
          (text_to_speech (generate_llm_response (transcribe_audio req.audio)
            (get_session_context store req.sessionId now).2 req.userId)),
        add_message_to_session
          (add_message_to_session (get_session_context store req.sessionId now).1
            req.sessionId ⟨transcribe_audio req.audio, "voice", true⟩ now)
          req.sessionId
          ⟨generate_llm_response (transcribe_audio req.audio)
            (get_session_context store req.sessionId now).2 req.userId,
            "voice", false⟩ now) := by
  simp only [placeholder_response, h, if_true]

theorem placeholder_answered (store : Store) (req : ChatRequest)
    (now : Nat) :
    ∃ m t u, (placeholder_response store req now).1
      = ChatResult.answered m t u := by
  cases h : (req.type == "voice")
  · exact ⟨_, _, _,
      congrArg Prod.fst (placeholder_response_text store req now h)⟩
  · exact ⟨_, _, _,
      congrArg Prod.fst (placeholder_response_voice store req now h)⟩

theorem lookupSession_placeholder_ne (store : Store) (req : ChatRequest)
    (now : Nat) (sid' : String) (h : sid' ≠ req.sessionId) :
    lookupSession (placeholder_response store req now).2 sid'
      = lookupSession store sid' := by
  cases hv : (req.type == "voice")
  · rw [placeholder_response_text store req now hv]
    rw [lookupSession_add_ne _ _ _ _ _ h, lookupSession_add_ne _ _ _ _ _ h,
      lookupSession_getctx_ne _ _ _ _ h]
  · rw [placeholder_response_voice store req now hv]
    rw [lookupSession_add_ne _ _ _ _ _ h, lookupSession_add_ne _ _ _ _ _ h,
      lookupSession_getctx_ne _ _ _ _ h]

/-! ## Claim theorems -/

/-- Claim C5: appending an 11th message to a session holding 10 messages
leaves exactly the last 10 in arrival order (oldest discarded, order
preserved), and the history length never exceeds 10 after any append. -/
theorem claim_C5_history_trimming (store : Store) (sid : String)
    (msg : MsgIn) (now : Nat)
    (h : (sessionMessages store sid).length = 10) :
    sessionMessages (add_message_to_session store sid msg now) sid
      = (sessionMessages store sid).drop 1
          ++ [⟨msg.content, msg.type, now, msg.is_user⟩]
    ∧ (sessionMessages (add_message_to_session store sid msg now) sid).length
        = 10
    ∧ ∀ (store2 : Store) (sid2 : String) (msg2 : MsgIn) (now2 : Nat),
        (sessionMessages (add_message_to_session store2 sid2 msg2 now2)
          sid2).length ≤ 10 := by
  have h1 : sessionMessages (add_message_to_session store sid msg now) sid
      = (sessionMessages store sid).drop 1
          ++ [⟨msg.content, msg.type, now, msg.is_user⟩] := by
    rw [sessionMessages_add, lastN, List.length_append,
      List.drop_append_eq_append_drop, h]
    norm_num
  refine ⟨h1, ?_, ?_⟩
  · rw [h1, List.length_append, List.length_drop, h, List.length_singleton]
  · intro store2 sid2 msg2 now2
    rw [sessionMessages_add]
    exact lastN_length_le 10 _

/-- Closed instance of claim C5 at a concrete 10-message session. -/
theorem claim_C5_history_trimming_witness :
    (sessionMessages
        [("s", ⟨[⟨"m0", "text", 0, true⟩, ⟨"m1", "text", 1, true⟩,
                 ⟨"m2", "text", 2, true⟩, ⟨"m3", "text", 3, true⟩,
                 ⟨"m4", "text", 4, true⟩, ⟨"m5", "text", 5, true⟩,
                 ⟨"m6", "text", 6, true⟩, ⟨"m7", "text", 7, true⟩,
                 ⟨"m8", "text", 8, true⟩, ⟨"m9", "text", 9, true⟩], 0, 0⟩)]
        "s").length = 10
    ∧ sessionMessages
        (add_message_to_session
          [("s", ⟨[⟨"m0", "text", 0, true⟩, ⟨"m1", "text", 1, true⟩,
                   ⟨"m2", "text", 2, true⟩, ⟨"m3", "text", 3, true⟩,
                   ⟨"m4", "text", 4, true⟩, ⟨"m5", "text", 5, true⟩,
                   ⟨"m6", "text", 6, true⟩, ⟨"m7", "text", 7, true⟩,
                   ⟨"m8", "text", 8, true⟩, ⟨"m9", "text", 9, true⟩], 0, 0⟩)]
          "s" ⟨"m10", "text", true⟩ 10) "s"
      = [⟨"m1", "text", 1, true⟩,
         ⟨"m2", "text", 2, true⟩, ⟨"m3", "text", 3, true⟩,
         ⟨"m4", "text", 4, true⟩, ⟨"m5", "text", 5, true⟩,
         ⟨"m6", "text", 6, true⟩, ⟨"m7", "text", 7, true⟩,
         ⟨"m8", "text", 8, true⟩, ⟨"m9", "text", 9, true⟩,
         ⟨"m10", "text", 10, true⟩] :=
  ⟨by decide,
   by
    rw [(claim_C5_history_trimming _ "s" ⟨"m10", "text", true⟩ 10
      (by decide)).1]
    decide⟩

/-- Claim C7: the fallback text responder is a deterministic
case-insensitive substring classifier in fixed priority order (motorsport,
then wager, then greeting, else echo naming the message); `"hello"` gets
the greeting reply, not the echo fallback. -/
theorem claim_C7_classifier_priority (m : String) (ctx ctx2 : Session)
    (u u2 : String) :
    generate_llm_response m ctx u = generate_llm_response m ctx2 u2
    ∧ generate_llm_response m ctx u =
        (if strIn "f1" (pyLower m) || strIn "formula" (pyLower m) then
          "I can help you with F1 predictions and analysis! Based on current data, I\x27d recommend checking the latest qualifying results and driver performance metrics."
        else if strIn "bet" (pyLower m) || strIn "betting" (pyLower m) then
          "For sports betting insights, I can analyze match statistics, team performance, and historical data to help you make informed decisions."
        else if strIn "hello" (pyLower m) || strIn "hi" (pyLower m) then
          "Hello! I\x27m your AI assistant for sports betting and F1 analysis. How can I help you today?"
        else
          "I understand you said: \x27" ++ m ++ "\x27. I\x27m here to help with sports betting analysis, F1 predictions, and match insights. What specific information are you looking for?")
    ∧ generate_llm_response "hello" ctx u
        = "Hello! I\x27m your AI assistant for sports betting and F1 analysis. How can I help you today?"
    ∧ generate_llm_response "hello" ctx u
        ≠ "I understand you said: \x27hello\x27. I\x27m here to help with sports betting analysis, F1 predictions, and match insights. What specific information are you looking for?" := by
  have h3 : generate_llm_response "hello" ctx u
      = "Hello! I\x27m your AI assistant for sports betting and F1 analysis. How can I help you today?" := rfl
  refine ⟨rfl, rfl, h3, ?_⟩
  rw [h3]
  decide

/-- Claim C8: `GET /sessions/{id}` returns a not-found signal for an
absent id without mutating the store, and the session record for a present
id, also without mutating the store. -/
theorem claim_C8_session_lookup (store : Store) (sid : String) :
    (lookupSession store sid = none →
      get_session_info store sid
        = (Except.error ⟨404, "Session not found"⟩, store))
    ∧ ∀ s : Session, lookupSession store sid = some s →
        get_session_info store sid = (Except.ok s, store) := by
  constructor
  · intro h
    unfold get_session_info
    rw [h]
  · intro s h
    unfold get_session_info
    rw [h]

/-- Closed instance of claim C8: an unknown id gives 404 and leaves the
store unchanged; a known id returns its record. -/
theorem claim_C8_session_lookup_witness :
    lookupSession [] "missing" = none
    ∧ get_session_info [] "missing"
        = (Except.error ⟨404, "Session not found"⟩, [])
    ∧ lookupSession [("a", ⟨[], 0, 0⟩)] "a" = some ⟨[], 0, 0⟩
    ∧ get_session_info [("a", ⟨[], 0, 0⟩)] "a"
        = (Except.ok ⟨[], 0, 0⟩, [("a", ⟨[], 0, 0⟩)]) :=
  ⟨by decide,
   (claim_C8_session_lookup [] "missing").1 (by decide),
   by decide,
   (claim_C8_session_lookup [("a", ⟨[], 0, 0⟩)] "a").2 ⟨[], 0, 0⟩ (by decide)⟩

/-- Claim C9: every `/health` response carries status, timestamp and a
backend block with the upstream url and an `available` flag equal to this
request's fresh probe result; the probe is false on any raised network
error and on any non-200 status. -/
theorem claim_C9_health_fresh_probe (probe : ProbeNet) (now : Nat) :
    health_check probe now
      = { status := "healthy", timestamp := now, service := "llm-chat-api",
          backend_client :=
            ⟨BACKEND_CLIENT_URL, check_backend_availability probe⟩ }
    ∧ (health_check probe now).backend_client.available
        = check_backend_availability probe
    ∧ (health_check probe now).backend_client.url = BACKEND_CLIENT_URL
    ∧ check_backend_availability ProbeNet.failure = false
    ∧ ∀ s : Nat, s ≠ 200 →
        check_backend_availability (ProbeNet.response s) = false := by
  refine ⟨rfl, rfl, rfl, rfl, ?_⟩
  intro s hs
  simp only [check_backend_availability, beq_eq_false_iff_ne, ne_eq]
  exact hs

/-- Closed instance of claim C9 at a non-200 probe status. -/
theorem claim_C9_health_fresh_probe_witness :
    (7 : Nat) ≠ 200
    ∧ check_backend_availability (ProbeNet.response 7) = false
    ∧ (health_check (ProbeNet.response 7) 3).backend_client.available
        = false :=
  ⟨by decide,
   (claim_C9_health_fresh_probe (ProbeNet.response 7) 3).2.2.2.2 7 (by decide),
   by decide⟩

/-- Claim C2: a voice request with no audio payload is rejected with a 400
and the store is untouched (zero appends, every session unchanged). -/
theorem claim_C2_voice_no_audio_rejected (store : Store) (req : ChatRequest)
    (net : Net) (now : Nat) (hv : req.type = "voice")
    (ha : req.audio = none) :
    chat_endpoint store req net now
      = (ChatResult.rejected 400 "Audio file required for voice messages",
         store) := by
  have h1 : (req.type != "text" && req.type != "voice") = false := by
    simp [hv]
  have h2 : (req.type == "voice" && req.audio == none) = true := by
    simp [hv, ha]
  simp only [chat_endpoint, h1, h2, Bool.false_eq_true, if_false, if_true]

/-- Closed instance of claim C2 at a concrete voice request lacking audio. -/
theorem claim_C2_voice_no_audio_rejected_witness :
    (⟨"yo", "voice", "s", "u", "n", none⟩ : ChatRequest).type = "voice"
    ∧ (⟨"yo", "voice", "s", "u", "n", none⟩ : ChatRequest).audio = none
    ∧ chat_endpoint [] ⟨"yo", "voice", "s", "u", "n", none⟩
        ⟨ProbeNet.failure, ForwardNet.timeout⟩ 0
      = (ChatResult.rejected 400 "Audio file required for voice messages",
         []) :=
  ⟨rfl, rfl,
   claim_C2_voice_no_audio_rejected [] ⟨"yo", "voice", "s", "u", "n", none⟩
     ⟨ProbeNet.failure, ForwardNet.timeout⟩ 0 rfl rfl⟩

/-- Claim C1: when the probe succeeds but the proxied forward call fails
with any Failure kind, the endpoint returns exactly what the placeholder
path would have produced for the same input (response and store alike),
and no error status derived from the upstream failure reaches the caller
(the outcome is a successful answer). -/
theorem claim_C1_proxy_failure_fallback (store : Store) (req : ChatRequest)
    (net : Net) (now : Nat) (e : HttpError)
    (hval : rejected_by_validation req = false)
    (hprobe : check_backend_availability net.probe = true)
    (hfail : proxy_to_backend_client req net.forward = Except.error e) :
    chat_endpoint store req net now = placeholder_response store req now
    ∧ ∃ m t u, (chat_endpoint store req net now).1
        = ChatResult.answered m t u := by
  have h := chat_endpoint_fallback store req net now hval (Or.inr ⟨e, hfail⟩)
  refine ⟨h, ?_⟩
  rw [h]
  exact placeholder_answered store req now

/-- Closed instance of claim C1: probe 200, forward timeout, text request. -/
theorem claim_C1_proxy_failure_fallback_witness :
    rejected_by_validation
        ⟨"Tell me about F1", "text", "s1", "u1", "n1", none⟩ = false
    ∧ check_backend_availability (ProbeNet.response 200) = true
    ∧ proxy_to_backend_client
        ⟨"Tell me about F1", "text", "s1", "u1", "n1", none⟩
        ForwardNet.timeout
        = Except.error ⟨504, "Backend client timeout"⟩
    ∧ chat_endpoint [] ⟨"Tell me about F1", "text", "s1", "u1", "n1", none⟩
        ⟨ProbeNet.response 200, ForwardNet.timeout⟩ 0
      = placeholder_response []
          ⟨"Tell me about F1", "text", "s1", "u1", "n1", none⟩ 0 :=
  ⟨by decide, by decide, rfl,
   (claim_C1_proxy_failure_fallback []
     ⟨"Tell me about F1", "text", "s1", "u1", "n1", none⟩
     ⟨ProbeNet.response 200, ForwardNet.timeout⟩ 0
     ⟨504, "Backend client timeout"⟩
     (by decide) (by decide) rfl).1⟩

/-- Claim C3: every text request, on the proxy path and on the fallback
path alike, appends exactly the user message followed by one assistant
message to its own session's history and leaves every other session
untouched. -/
theorem claim_C3_text_two_appends (store : Store) (req : ChatRequest)
    (net : Net) (now : Nat) (ht : req.type = "text") :
    (∃ ma : Message, ma.is_user = false
      ∧ sessionMessages (chat_endpoint store req net now).2 req.sessionId
          = lastN 10 (sessionMessages store req.sessionId
              ++ [⟨req.message, "text", now, true⟩, ma]))
    ∧ ∀ sid' : String, sid' ≠ req.sessionId →
        lookupSession (chat_endpoint store req net now).2 sid'
          = lookupSession store sid' := by
  have hv : (req.type == "voice") = false := by simp [ht]
  have hval : rejected_by_validation req = false := by
    simp [rejected_by_validation, ht]
  have hfallback : chat_endpoint store req net now
        = placeholder_response store req now →
      (∃ ma : Message, ma.is_user = false
        ∧ sessionMessages (chat_endpoint store req net now).2 req.sessionId
            = lastN 10 (sessionMessages store req.sessionId
                ++ [⟨req.message, "text", now, true⟩, ma]))
      ∧ ∀ sid' : String, sid' ≠ req.sessionId →
          lookupSession (chat_endpoint store req net now).2 sid'
            = lookupSession store sid' := by
    intro h
    rw [h, placeholder_response_text store req now hv]
    constructor
    · refine ⟨⟨generate_llm_response req.message
          (get_session_context store req.sessionId now).2 req.userId,
          "text", now, false⟩, rfl, ?_⟩
      rw [sessionMessages_add_two, sessionMessages_getctx_store]
    · intro sid' hne
      rw [lookupSession_add_ne _ _ _ _ _ hne,
        lookupSession_add_ne _ _ _ _ _ hne,
        lookupSession_getctx_ne _ _ _ _ hne]
  cases hc : check_backend_availability net.probe
  · exact hfallback
      (chat_endpoint_fallback store req net now hval (Or.inl hc))
  · obtain ⟨h1, h2, h3⟩ := guards_of_not_rejected req hval
    cases hp : proxy_to_backend_client req net.forward with
    | error e =>
        exact hfallback
          (chat_endpoint_fallback store req net now hval (Or.inr ⟨e, hp⟩))
    | ok result =>
        have hr : chat_endpoint store req net now
            = (ChatResult.proxied result,
              add_message_to_session
                (add_message_to_session store req.sessionId
                  ⟨req.message, req.type, true⟩ now)
                req.sessionId
                ⟨result.message.getD "", result.type.getD "text", false⟩
                now) := by
          simp only [chat_endpoint, h1, h2, h3, hc, hp, Bool.false_eq_true,
            if_false, if_true]
        rw [hr]
        constructor
        · exact ⟨⟨result.message.getD "", result.type.getD "text", now,
            false⟩, rfl, by rw [sessionMessages_add_two, ht]⟩
        · intro sid' hne
          rw [lookupSession_add_ne _ _ _ _ _ hne,
            lookupSession_add_ne _ _ _ _ _ hne]

/-- Closed instance of claim C3 at a concrete text request on the
fallback path. -/
theorem claim_C3_text_two_appends_witness :
    (⟨"hello", "text", "s", "u", "n", none⟩ : ChatRequest).type = "text"
    ∧ ((∃ ma : Message, ma.is_user = false
        ∧ sessionMessages
            (chat_endpoint [] ⟨"hello", "text", "s", "u", "n", none⟩
              ⟨ProbeNet.failure, ForwardNet.timeout⟩ 0).2 "s"
          = lastN 10 (sessionMessages [] "s"
              ++ [⟨"hello", "text", 0, true⟩, ma]))
      ∧ ∀ sid' : String, sid' ≠ "s" →
          lookupSession
            (chat_endpoint [] ⟨"hello", "text", "s", "u", "n", none⟩
              ⟨ProbeNet.failure, ForwardNet.timeout⟩ 0).2 sid'
            = lookupSession [] sid') :=
  ⟨rfl,
   claim_C3_text_two_appends [] ⟨"hello", "text", "s", "u", "n", none⟩
     ⟨ProbeNet.failure, ForwardNet.timeout⟩ 0 rfl⟩

/-- Claim C4: when the probe fails, the outcome does not depend on the
forward oracle at all (the forward call is never made) and equals the
placeholder path's output verbatim; for a text request the answer is the
generator's reply, and the concrete scenario "Tell me about F1" with no
upstream yields the motorsport reply with type "text" and no audioUrl. -/
theorem claim_C4_probe_false_uses_generator (store : Store)
    (req : ChatRequest) (net : Net) (now : Nat)
    (hval : rejected_by_validation req = false)
    (hprobe : check_backend_availability net.probe = false) :
    (∀ f : ForwardNet, chat_endpoint store req ⟨net.probe, f⟩ now
        = placeholder_response store req now)
    ∧ (req.type = "text" →
        (chat_endpoint store req net now).1
          = ChatResult.answered
              (generate_llm_response req.message
                (get_session_context store req.sessionId now).2 req.userId)
              "text" none)
    ∧ (chat_endpoint []
          ⟨"Tell me about F1", "text", "s1", "u1", "user1", none⟩
          ⟨ProbeNet.failure, ForwardNet.timeout⟩ 0).1
        = ChatResult.answered
            "I can help you with F1 predictions and analysis! Based on current data, I\x27d recommend checking the latest qualifying results and driver performance metrics."
            "text" none := by
  refine ⟨?_, ?_, by decide⟩
  · intro f
    exact chat_endpoint_fallback store req ⟨net.probe, f⟩ now hval
      (Or.inl hprobe)
  · intro ht
    have hv : (req.type == "voice") = false := by simp [ht]
    rw [chat_endpoint_fallback store req net now hval (Or.inl hprobe),
      placeholder_response_text store req now hv]

/-- Closed instance of claim C4: probe raises, text request "hi". -/
theorem claim_C4_probe_false_uses_generator_witness :
    rejected_by_validation (⟨"hi", "text", "s", "u", "n", none⟩ : ChatRequest)
        = false
    ∧ check_backend_availability ProbeNet.failure = false
    ∧ ((∀ f : ForwardNet,
        chat_endpoint [] ⟨"hi", "text", "s", "u", "n", none⟩
            ⟨ProbeNet.failure, f⟩ 0
          = placeholder_response [] ⟨"hi", "text", "s", "u", "n", none⟩ 0)) :=
  ⟨by decide, by decide,
   (claim_C4_probe_false_uses_generator []
     ⟨"hi", "text", "s", "u", "n", none⟩
     ⟨ProbeNet.failure, ForwardNet.timeout⟩ 0 (by decide) (by decide)).1⟩

/-- Claim C6 fails on the code: a voice request whose audio part declares
NO media type is not rejected — the guard `audio.content_type and not
audio.content_type.startswith("audio/")` is skipped for a falsy media
type, so the request is answered and the session is mutated. -/
theorem claim_C6_counterexample :
    (chat_endpoint []
        ⟨"hi there", "voice", "s1", "u1", "n1", some ⟨some "clip.webm", none⟩⟩
        ⟨ProbeNet.failure, ForwardNet.timeout⟩ 0).1
      ≠ ChatResult.rejected 400 "File must be an audio file"
    ∧ (chat_endpoint []
        ⟨"hi there", "voice", "s1", "u1", "n1", some ⟨some "clip.webm", none⟩⟩
        ⟨ProbeNet.failure, ForwardNet.timeout⟩ 0).1
      = ChatResult.answered
          (generate_llm_response
            (transcribe_audio (some ⟨some "clip.webm", none⟩))
            ⟨[], 0, 0⟩ "u1")
          "voice" none
    ∧ (chat_endpoint []
        ⟨"hi there", "voice", "s1", "u1", "n1", some ⟨some "clip.webm", none⟩⟩
        ⟨ProbeNet.failure, ForwardNet.timeout⟩ 0).2
      ≠ ([] : Store) := by
  refine ⟨by decide, by decide, by decide⟩

/-- Claim C6 as amended: a voice request is rejected for its media type
only when the audio part declares a non-empty media type that does not
start with `audio/`; then the endpoint returns 400 and the store is
untouched.  (An absent or empty declared media type is accepted.) -/
theorem claim_C6_bad_media_type_rejected (store : Store)
    (req : ChatRequest) (net : Net) (now : Nat) (a : AudioFile)
    (ct : String) (hv : req.type = "voice") (ha : req.audio = some a)
    (hct : a.content_type = some ct) (hne : ct ≠ "")
    (hpre : pyStartswith ct "audio/" = false) :
    chat_endpoint store req net now
      = (ChatResult.rejected 400 "File must be an audio file", store) := by
  have h1 : (req.type != "text" && req.type != "voice") = false := by
    simp [hv]
  have h2 : (req.type == "voice" && req.audio == none) = false := by
    simp [ha]
  have h3 : (req.type == "voice" && bad_content_type req.audio) = true := by
    simp [hv, ha, bad_content_type, hct, hpre, hne]
  simp only [chat_endpoint, h1, h2, h3, Bool.false_eq_true, if_false,
    if_true]

/-- Closed instance of amended claim C6: declared media type video/mp4. -/
theorem claim_C6_bad_media_type_rejected_witness :
    (⟨"x", "voice", "s", "u", "n",
        some ⟨some "f.mp4", some "video/mp4"⟩⟩ : ChatRequest).type = "voice"
    ∧ (⟨"x", "voice", "s", "u", "n",
        some ⟨some "f.mp4", some "video/mp4"⟩⟩ : ChatRequest).audio
        = some ⟨some "f.mp4", some "video/mp4"⟩
    ∧ (⟨some "f.mp4", some "video/mp4"⟩ : AudioFile).content_type
        = some "video/mp4"
    ∧ ("video/mp4" : String) ≠ ""
    ∧ pyStartswith "video/mp4" "audio/" = false
    ∧ chat_endpoint []
        ⟨"x", "voice", "s", "u", "n", some ⟨some "f.mp4", some "video/mp4"⟩⟩
        ⟨ProbeNet.response 200, ForwardNet.timeout⟩ 0
      = (ChatResult.rejected 400 "File must be an audio file", []) :=
  ⟨rfl, rfl, rfl, by decide, by decide,
   claim_C6_bad_media_type_rejected []
     ⟨"x", "voice", "s", "u", "n", some ⟨some "f.mp4", some "video/mp4"⟩⟩
     ⟨ProbeNet.response 200, ForwardNet.timeout⟩ 0
     ⟨some "f.mp4", some "video/mp4"⟩ "video/mp4"
     rfl rfl rfl (by decide) (by decide)⟩

/-- Claim C10: a voice request answered by the fallback path records the
transcription output (the fixed placeholder text) as the user-side
message — not the submitted message field — and the generator's reply to
that transcription as the assistant-side message, both with kind "voice". -/
theorem claim_C10_voice_fallback_records_transcription (store : Store)
    (req : ChatRequest) (net : Net) (now : Nat) (hv : req.type = "voice")
    (hval : rejected_by_validation req = false)
    (hfb : check_backend_availability net.probe = false
        ∨ ∃ e, proxy_to_backend_client req net.forward = Except.error e) :
    sessionMessages (chat_endpoint store req net now).2 req.sessionId
      = lastN 10 (sessionMessages store req.sessionId
          ++ [⟨transcribe_audio req.audio, "voice", now, true⟩,
              ⟨generate_llm_response (transcribe_audio req.audio)
                 (get_session_context store req.sessionId now).2 req.userId,
               "voice", now, false⟩])
    ∧ transcribe_audio req.audio
        = "I received your voice message, but speech-to-text is not implemented yet. Please use text messages for now."
    ∧ (chat_endpoint store req net now).1
        = ChatResult.answered
            (generate_llm_response (transcribe_audio req.audio)
              (get_session_context store req.sessionId now).2 req.userId)
            "voice"
            (text_to_speech (generate_llm_response (transcribe_audio req.audio)
              (get_session_context store req.sessionId now).2 req.userId)) := by
  have hb : (req.type == "voice") = true := by simp [hv]
  have h := chat_endpoint_fallback store req net now hval hfb
  rw [h, placeholder_response_voice store req now hb]
  refine ⟨?_, rfl, rfl⟩
  rw [sessionMessages_add_two, sessionMessages_getctx_store]

/-- Closed instance of claim C10: concrete voice request, probe raises. -/
theorem claim_C10_voice_fallback_records_transcription_witness :
    (⟨"ignored text", "voice", "s", "u", "n",
        some ⟨some "c.webm", some "audio/webm"⟩⟩ : ChatRequest).type
        = "voice"
    ∧ rejected_by_validation
        ⟨"ignored text", "voice", "s", "u", "n",
          some ⟨some "c.webm", some "audio/webm"⟩⟩ = false
    ∧ check_backend_availability ProbeNet.failure = false
    ∧ transcribe_audio (some ⟨some "c.webm", some "audio/webm"⟩)
        = "I received your voice message, but speech-to-text is not implemented yet. Please use text messages for now." :=
  ⟨rfl, by decide, by decide,
   (claim_C10_voice_fallback_records_transcription []
     ⟨"ignored text", "voice", "s", "u", "n",
       some ⟨some "c.webm", some "audio/webm"⟩⟩
     ⟨ProbeNet.failure, ForwardNet.timeout⟩ 0 rfl (by decide)
     (Or.inl (by decide))).2.1⟩

end DDCore
